import Mathlib

/-!
Shallow embedding of `src/inbox/server/util/google_contacts.py`
(`GoogleContactsProvider`): parsing of Google contact entries
(`_parse_contact_result`), client construction (`_get_google_client`) and
the `get_contacts` generator, together with theorems checking the
natural-language specification against this embedding.

Modelling conventions:
  * gdata XML elements that may be absent are `Option`; accessing an
    attribute of an absent element (Python `AttributeError` on `None`)
    is modelled as the error outcome `PErr.attrError`.
  * `dateutil.parser.parse` on the ISO 8601 `Z`-suffixed strings produced
    by the Google API is modelled by `dateutil_parse`; an unparseable
    string (Python `ValueError`, not caught by the `except AttributeError`
    clause) is `PErr.valueError`.
  * a Python `datetime` is its broken-down UTC wall-clock fields
    (`PyDateTime`).  The roundtrip
    `datetime.datetime.fromtimestamp(time.mktime(dt.utctimetuple()))`
    keeps the year/month/day/hour/minute/second fields and drops the
    microsecond field, which is what `truncate_to_second` does.
  * logging calls are recorded as `LogEvent` values in emission order.
  * the generator `get_contacts` is modelled by the observations a caller
    makes when iterating it to exhaustion: the query it builds, the
    records yielded before any failure, the failure (if any) that the
    iteration raises, how many remote fetch calls were made, and the log.
-/

/-- One entry of a contact's email collection (`gdata` `Email` element):
the `primary` flag and the `address` attribute (which may be absent). -/
structure Email where
  primary : Bool
  address : Option String
deriving DecidableEq, Repr

/-- The structured-name element: `name.full_name.text`, each level of
which may be absent. -/
structure FullName where
  text : Option String
deriving DecidableEq, Repr

/-- The `name` element of a contact entry. -/
structure EntryName where
  full_name : Option FullName
deriving DecidableEq, Repr

/-- A Google contact entry (`gdata.contacts.entry.ContactEntry`) as far
as `_parse_contact_result` reads it.  `id = none` models an entry whose
identifier element is absent (so `google_contact.id.text` raises);
`id = some none` models an identifier element whose text is `None`
(so `posixpath.split(None)` raises).  `updated` is the text of the
`updated` element when present. -/
structure ContactEntry where
  id : Option (Option String)
  email : List Email
  name : Option EntryName
  updated : Option String
deriving DecidableEq, Repr

/-- A Python `datetime` value by its UTC wall-clock fields. -/
structure PyDateTime where
  year : Nat
  month : Nat
  day : Nat
  hour : Nat
  minute : Nat
  second : Nat
  microsecond : Nat
deriving DecidableEq, Repr

/-- The Contact record constructed by `_parse_contact_result`
(`..models.tables.Contact` with the columns the parser fills). -/
structure Contact where
  imapaccount_id : Nat
  source : String
  g_id : Option String
  name : Option String
  updated_at : Option PyDateTime
  email_address : Option String
deriving DecidableEq, Repr

/-- Exceptions that can escape `_parse_contact_result`. -/
inductive PErr where
  | attrError
  | valueError
deriving DecidableEq, Repr

/-- Logging calls made by the provider, with the data they format. -/
inductive LogEvent where
  | multiPrimary (emails : List Email)
  | badContact (c : ContactEntry)
  | invalidCredentials
deriving DecidableEq, Repr

/-- Value of a decimal digit character, if it is one. -/
def digitVal (c : Char) : Option Nat :=
  if c.isDigit then some (c.toNat - 48) else none

/-- Numeric value of a list of decimal digit characters. -/
def natOfDigits : List Char → Nat → Nat
  | [], acc => acc
  | c :: cs, acc => natOfDigits cs (acc * 10 + (c.toNat - 48))

/-- Microseconds from the fractional-second digits of a timestamp, the
way `dateutil` converts them: pad or cut to six digits. -/
def fracToMicro (ds : List Char) : Option Nat :=
  if ds ≠ [] ∧ ds.all Char.isDigit then
    some (natOfDigits ((ds ++ ['0', '0', '0', '0', '0', '0']).take 6) 0)
  else none

/-- Check a run of characters are digits and read them. -/
def readDigits (cs : List Char) : Option Nat :=
  if cs ≠ [] ∧ cs.all Char.isDigit then some (natOfDigits cs 0) else none

/-- Tail of a timestamp after the seconds field: either `Z` alone, or a
fractional part `.digits` followed by `Z`. -/
def parseFracZ (rest : List Char) : Option Nat :=
  match rest with
  | ['Z'] => some 0
  | '.' :: rs =>
    if rs.getLast? = some 'Z' then fracToMicro rs.dropLast else none
  | _ => none

/-- Model of `dateutil.parser.parse` restricted to the
`YYYY-MM-DDTHH:MM:SS[.fff...]Z` strings the Google API serves; `none`
models the `ValueError` raised on an unparseable string.  The `Z` zone
makes the parsed value UTC, so the fields are already the ones
`utctimetuple` would return. -/
def dateutil_parse (s : String) : Option PyDateTime :=
  match s.data with
  | y1 :: y2 :: y3 :: y4 :: '-' :: m1 :: m2 :: '-' :: d1 :: d2 :: 'T' ::
      h1 :: h2 :: ':' :: n1 :: n2 :: ':' :: s1 :: s2 :: rest =>
    match readDigits [y1, y2, y3, y4], readDigits [m1, m2],
        readDigits [d1, d2], readDigits [h1, h2], readDigits [n1, n2],
        readDigits [s1, s2], parseFracZ rest with
    | some y, some mo, some d, some h, some mi, some sec, some micro =>
      if 1 ≤ mo ∧ mo ≤ 12 ∧ 1 ≤ d ∧ d ≤ 31 ∧ h < 24 ∧ mi < 60 ∧ sec < 60
      then some ⟨y, mo, d, h, mi, sec, micro⟩
      else none
    | _, _, _, _, _, _, _ => none
  | _ => none

/-- The timestamp roundtrip
`datetime.datetime.fromtimestamp(time.mktime(updated_at.utctimetuple()))`:
`utctimetuple` drops the microsecond field, and the
`mktime`/`fromtimestamp` pair reproduces the remaining wall-clock
fields. -/
def truncate_to_second (dt : PyDateTime) : PyDateTime :=
  { dt with microsecond := 0 }

/-- Last path component, as `posixpath.split(s)[1]`: everything after
the final slash (the whole string when there is no slash).  Only the
tail of the pair is used by the source (`_, g_id = posixpath.split`). -/
def lastSegAux : List Char → List Char → List Char
  | acc, [] => acc.reverse
  | acc, c :: cs => if c = '/' then lastSegAux [] cs else lastSegAux (c :: acc) cs

/-- The tail component of `posixpath.split`. -/
def posixpath_split_tail (s : String) : String :=
  String.mk (lastSegAux [] s.data)

/-- The list comprehension
`[email for email in google_contact.email if email.primary]`. -/
def primary_emails (c : ContactEntry) : List Email :=
  c.email.filter fun e => e.primary

/-- Embedding of `GoogleContactsProvider._parse_contact_result`:
returns the constructed Contact or the exception that escapes, together
with the log events emitted, in order. -/
def parse_contact_result (account_id : Nat) (c : ContactEntry) :
    Except PErr Contact × List LogEvent :=
  let email_addresses := primary_emails c
  let log0 : List LogEvent :=
    if 1 < email_addresses.length then [LogEvent.multiPrimary email_addresses]
    else []
  match c.id with
  | none =>
    -- `google_contact.id.text` raises AttributeError; caught, the raw
    -- contact is logged, and the error is re-raised.
    (Except.error PErr.attrError, log0 ++ [LogEvent.badContact c])
  | some none =>
    -- `posixpath.split(None)` raises AttributeError; same handling.
    (Except.error PErr.attrError, log0 ++ [LogEvent.badContact c])
  | some (some raw_google_id) =>
    let g_id := posixpath_split_tail raw_google_id
    let name : Option String :=
      match c.name with
      | some n =>
        match n.full_name with
        | some f => f.text
        | none => none
      | none => none
    match c.updated with
    | none =>
      -- Inside the try-block `updated_at` is set to None; after the
      -- try-block, `updated_at.utctimetuple()` raises AttributeError on
      -- None, uncaught (the except clause has already been left), so no
      -- bad-contact log is emitted.
      (Except.error PErr.attrError, log0)
    | some updText =>
      match dateutil_parse updText with
      | none =>
        -- ValueError from dateutil; uncaught by `except AttributeError`.
        (Except.error PErr.valueError, log0)
      | some dt =>
        let email_address : Option String :=
          match email_addresses with
          | [] => none
          | e :: _ => e.address
        let updated_at := truncate_to_second dt
        (Except.ok
          { imapaccount_id := account_id, source := "remote",
            g_id := some g_id, name := name,
            updated_at := some updated_at,
            email_address := email_address }, log0)

/-- The `gdata.contacts.client.ContactsQuery` object as `get_contacts`
configures it: both fields start out unset. -/
structure ContactsQuery where
  max_results : Option Int
  updated_min : Option String
deriving DecidableEq, Repr

/-- The remote client, abstracted to the entries its `GetContacts` feed
returns. -/
structure GoogleClient where
  entries : List ContactEntry
deriving DecidableEq, Repr

/-- Embedding of `_get_google_client`: `authOk` is whether the account
verification and token construction succeed (`false` models
`gdata.client.BadAuthentication` being raised).  On failure an error is
logged and None is returned instead of raising. -/
def get_google_client (authOk : Bool) (remote : List ContactEntry) :
    Option GoogleClient × List LogEvent :=
  if authOk then (some { entries := remote }, [])
  else (none, [LogEvent.invalidCredentials])

/-- One iteration pass of the generator body over the fetched entries:
records yielded before any failure, the failure that then escapes (if
any), and the log events emitted. -/
def parseLoop (account_id : Nat) :
    List ContactEntry → List Contact × Option PErr × List LogEvent
  | [] => ([], none, [])
  | c :: rest =>
    match parse_contact_result account_id c with
    | (Except.error e, lg) => ([], some e, lg)
    | (Except.ok r, lg) =>
      let out := parseLoop account_id rest
      (r :: out.1, out.2.1, lg ++ out.2.2)

/-- Everything a caller observes from running the `get_contacts`
generator to exhaustion. -/
structure RunResult where
  query : ContactsQuery
  yielded : List Contact
  error : Option PErr
  fetch_calls : Nat
  log : List LogEvent
deriving DecidableEq, Repr

/-- Embedding of `GoogleContactsProvider.get_contacts`.  In the source
`sync_from_time` defaults to `None` and `max_results` to `0`; absent
arguments are these values.  `authOk` and `remote` stand for the account
state and the remote feed contents. -/
def get_contacts (account_id : Nat) (authOk : Bool)
    (remote : List ContactEntry) (sync_from_time : Option String)
    (max_results : Int) : RunResult :=
  let query : ContactsQuery :=
    { max_results := if max_results > 0 then some max_results else none,
      updated_min := sync_from_time }
  match get_google_client authOk remote with
  | (none, lg) =>
    { query := query, yielded := [], error := none, fetch_calls := 0,
      log := lg }
  | (some client, lg) =>
    let out := parseLoop account_id client.entries
    { query := query, yielded := out.1, error := out.2.1, fetch_calls := 1,
      log := lg ++ out.2.2 }

/-- The successful value of a parse outcome, if any. -/
def okValue (x : Except PErr Contact) : Option Contact :=
  match x with
  | Except.ok r => some r
  | Except.error _ => none

/-- Whether a log event is the more-than-one-primary-email anomaly. -/
def isMultiPrimaryLog (ev : LogEvent) : Bool :=
  match ev with
  | LogEvent.multiPrimary _ => true
  | _ => false

/-- A well-formed entry used as a concrete instance in witnesses. -/
def cGood : ContactEntry :=
  { id := some (some "http://g/base/ok1"), email := [], name := none,
    updated := some "2014-03-01T10:15:30Z" }

/-- The record `_parse_contact_result` builds from `cGood`. -/
def rGood : Contact :=
  { imapaccount_id := 7, source := "remote", g_id := some "ok1",
    name := none, updated_at := some ⟨2014, 3, 1, 10, 15, 30, 0⟩,
    email_address := none }

/-- An entry whose identifier element is absent. -/
def cNoId : ContactEntry :=
  { id := none, email := [], name := none,
    updated := some "2014-03-01T10:15:30Z" }

/-- An entry with two emails flagged primary. -/
def cTwoPrimary : ContactEntry :=
  { id := some (some "http://g/base/u1"),
    email := [{ primary := true, address := some "a@x.com" },
              { primary := true, address := some "b@x.com" },
              { primary := false, address := some "c@x.com" }],
    name := none, updated := some "2014-03-01T10:15:30.123Z" }

/-- The record `_parse_contact_result` builds from `cTwoPrimary`. -/
def rTwoPrimary : Contact :=
  { imapaccount_id := 7, source := "remote", g_id := some "u1",
    name := none, updated_at := some ⟨2014, 3, 1, 10, 15, 30, 0⟩,
    email_address := some "a@x.com" }

example :
    dateutil_parse "2014-03-01T10:15:30.123Z" =
      some ⟨2014, 3, 1, 10, 15, 30, 123000⟩ := by decide

example : posixpath_split_tail "http://a/b/base/uid7" = "uid7" := by decide

section Lemmas

/-- Skipping everything up to a slash resets the accumulated segment. -/
theorem lastSegAux_append_slash (xs ys acc : List Char) :
    lastSegAux acc (xs ++ '/' :: ys) = lastSegAux [] ys := by
  induction xs generalizing acc with
  | nil => simp [lastSegAux]
  | cons x xs ih =>
    simp only [List.cons_append, lastSegAux]
    by_cases hx : x = '/' <;> simp [hx, ih]

/-- On a slash-free list the accumulator and the rest are returned. -/
theorem lastSegAux_no_slash (ys : List Char) (acc : List Char)
    (h : ('/' : Char) ∉ ys) : lastSegAux acc ys = acc.reverse ++ ys := by
  induction ys generalizing acc with
  | nil => simp [lastSegAux]
  | cons y ys ih =>
    have hy : ¬ (y = '/') := fun e => h (e ▸ List.mem_cons_self y ys)
    have h2 : ('/' : Char) ∉ ys := fun m => h (List.mem_cons_of_mem y m)
    simp [lastSegAux, hy, ih _ h2]

/-- `posixpath.split` on a path ending in a slash-free final segment
returns that segment as the tail. -/
theorem posixpath_split_tail_append (p uid : String)
    (h : ('/' : Char) ∉ uid.data) :
    posixpath_split_tail (p ++ "/" ++ uid) = uid := by
  unfold posixpath_split_tail
  have hd : (p ++ "/" ++ uid).data = p.data ++ '/' :: uid.data := by
    rw [String.data_append, String.data_append, List.append_assoc]
    rfl
  rw [hd, lastSegAux_append_slash, lastSegAux_no_slash _ _ h]
  rfl

end Lemmas

/-- A prefix of entries that all parse successfully contributes its
records, in order, before the loop continues with the rest. -/
theorem parseLoop_append_ok (a : Nat) (pre rest : List ContactEntry)
    (hpre : ∀ c ∈ pre, (okValue (parse_contact_result a c).1).isSome = true) :
    parseLoop a (pre ++ rest) =
      ((pre.filterMap fun c => okValue (parse_contact_result a c).1) ++
          (parseLoop a rest).1,
        (parseLoop a rest).2.1,
        (pre.map fun c => (parse_contact_result a c).2).flatten ++
          (parseLoop a rest).2.2) := by
  induction pre with
  | nil => simp
  | cons c cs ih =>
    have hc : (okValue (parse_contact_result a c).1).isSome = true :=
      hpre c (List.mem_cons_self c cs)
    have hcs : ∀ x ∈ cs, (okValue (parse_contact_result a x).1).isSome = true :=
      fun x hx => hpre x (List.mem_cons_of_mem c hx)
    rcases hp : parse_contact_result a c with ⟨res, lg⟩
    cases res with
    | error e => rw [hp] at hc; simp [okValue] at hc
    | ok r =>
      simp only [List.cons_append, parseLoop, List.append_eq, hp, ih hcs,
        List.filterMap_cons, okValue, List.map_cons, List.flatten_cons,
        List.append_assoc]

/-- The log of any parse outcome is the (possible) multi-primary anomaly
followed by events that are not multi-primary anomalies. -/
theorem parse_log_split (a : Nat) (c : ContactEntry) :
    ∃ tail, (parse_contact_result a c).2 =
        (if 1 < (primary_emails c).length
          then [LogEvent.multiPrimary (primary_emails c)] else []) ++ tail ∧
      tail.countP isMultiPrimaryLog = 0 := by
  obtain ⟨cid, ce, cn, cu⟩ := c
  rcases cid with _ | (_ | s)
  · exact ⟨[LogEvent.badContact _], rfl, by simp [isMultiPrimaryLog]⟩
  · exact ⟨[LogEvent.badContact _], rfl, by simp [isMultiPrimaryLog]⟩
  · rcases cu with _ | u
    · exact ⟨[], (List.append_nil _).symm, rfl⟩
    · rcases hdp : dateutil_parse u with _ | dt
      · refine ⟨[], ?_, rfl⟩
        simp [parse_contact_result, hdp]
      · refine ⟨[], ?_, rfl⟩
        simp [parse_contact_result, hdp]

/-- Anomaly-count helper: the multi-primary log event is present exactly
when more than one primary email is present, and then exactly once. -/
theorem parse_countMulti (a : Nat) (c : ContactEntry) :
    (parse_contact_result a c).2.countP isMultiPrimaryLog =
      if 1 < (primary_emails c).length then 1 else 0 := by
  rcases parse_log_split a c with ⟨tail, heq, hcnt⟩
  rw [heq]
  by_cases hl : 1 < (primary_emails c).length <;>
    simp [hl, List.countP_append, hcnt, isMultiPrimaryLog]

/-- The email_address of a successfully produced record is the address
of the first primary email, or absent when there is none. -/
theorem parse_email_address (a : Nat) (c : ContactEntry) (r : Contact)
    (h : (parse_contact_result a c).1 = Except.ok r) :
    r.email_address =
      match primary_emails c with
      | [] => none
      | e :: _ => e.address := by
  obtain ⟨cid, ce, cn, cu⟩ := c
  rcases cid with _ | (_ | s)
  · simp [parse_contact_result] at h
  · simp [parse_contact_result] at h
  · rcases cu with _ | u
    · simp [parse_contact_result] at h
    · rcases hdp : dateutil_parse u with _ | dt
      · simp [parse_contact_result, hdp] at h
      · simp [parse_contact_result, hdp] at h
        subst h
        rfl

/-- Whether parsing succeeds does not depend on the email collection. -/
theorem parse_isOk_email_independent (a : Nat) (c : ContactEntry) :
    (okValue (parse_contact_result a c).1).isSome =
      (okValue (parse_contact_result a { c with email := [] }).1).isSome := by
  obtain ⟨cid, ce, cn, cu⟩ := c
  rcases cid with _ | (_ | s)
  · rfl
  · rfl
  · rcases cu with _ | u
    · rfl
    · rcases hdp : dateutil_parse u with _ | dt <;>
        simp [parse_contact_result, okValue, hdp]

/-- C1: the claim says an entry with its update-timestamp field absent
yields a record with `updated_at` absent.  The code instead sets the
local variable to None inside the try-block and then, past the
except-clause, calls `utctimetuple()` on it, so an otherwise well-formed
entry without an `updated` element makes `_parse_contact_result` raise
an uncaught AttributeError and no record is produced.  This theorem
evaluates the embedding at such an entry. -/
theorem parse_updated_absent_raises :
    parse_contact_result 7
      { id := some (some "http://g/base/z1"), email := [], name := none,
        updated := none } =
      (Except.error PErr.attrError, []) := rfl

/-- C2: for every entry, the multi-primary anomaly is logged exactly
once when more than one email is flagged primary and never otherwise;
a successfully produced record's email_address is absent when no email
is primary and is the first primary email's address otherwise (in
particular the unique one's address when exactly one is primary); and
whether parsing succeeds does not depend on the email collection, so
the multiplicity raises no failure. -/
theorem parse_primary_email_spec (a : Nat) (c : ContactEntry) :
    ((parse_contact_result a c).2.countP isMultiPrimaryLog =
        if 1 < (primary_emails c).length then 1 else 0) ∧
    (∀ r, (parse_contact_result a c).1 = Except.ok r →
        r.email_address =
          match primary_emails c with
          | [] => none
          | e :: _ => e.address) ∧
    ((okValue (parse_contact_result a c).1).isSome =
        (okValue (parse_contact_result a { c with email := [] }).1).isSome) :=
  ⟨parse_countMulti a c, fun r h => parse_email_address a c r h,
    parse_isOk_email_independent a c⟩

/-- Witness for C2 at a concrete entry with two primary emails: the
anomaly is logged once and the produced record carries the first
primary address. -/
theorem parse_primary_email_spec_witness :
    (parse_contact_result 7 cTwoPrimary).2.countP isMultiPrimaryLog = 1 ∧
    rTwoPrimary.email_address = some "a@x.com" := by
  refine ⟨?_, ?_⟩
  · have h1 := (parse_primary_email_spec 7 cTwoPrimary).1
    rw [h1]
    decide
  · have h2 := (parse_primary_email_spec 7 cTwoPrimary).2.1 rTwoPrimary rfl
    rw [h2]
    decide

/-- C4: on an account whose credentials are invalid, `get_contacts`
yields nothing, raises nothing, performs zero fetch calls, and logs the
credentials error. -/
theorem get_contacts_invalid_credentials (a : Nat)
    (remote : List ContactEntry) (sft : Option String) (mr : Int) :
    (get_contacts a false remote sft mr).yielded = [] ∧
    (get_contacts a false remote sft mr).error = none ∧
    (get_contacts a false remote sft mr).fetch_calls = 0 ∧
    (get_contacts a false remote sft mr).log =
      [LogEvent.invalidCredentials] :=
  ⟨rfl, rfl, rfl, rfl⟩

/-- C5: on an entry updated at "2014-03-01T10:15:30.123Z" the produced
record's updated_at has the seconds field unchanged (30, so truncated
rather than shifted) and a zero sub-second component. -/
theorem parse_updated_truncated_example :
    parse_contact_result 7
      { id := some (some "http://g/base/t1"), email := [], name := none,
        updated := some "2014-03-01T10:15:30.123Z" } =
      (Except.ok
        { imapaccount_id := 7, source := "remote", g_id := some "t1",
          name := none,
          updated_at := some ⟨2014, 3, 1, 10, 15, 30, 0⟩,
          email_address := none }, []) := rfl

/-- C7: a call with max_results 5 caps the query at 5; a call with
max_results 0 (the value an absent argument defaults to) sets no cap. -/
theorem get_contacts_max_results_cap (a : Nat) (authOk : Bool)
    (remote : List ContactEntry) (sft : Option String) :
    (get_contacts a authOk remote sft 5).query.max_results = some 5 ∧
    (get_contacts a authOk remote sft 0).query.max_results = none := by
  cases authOk <;> exact ⟨rfl, rfl⟩

/-- C8: a sync_from_time string is stored as the query's updated_min
unchanged. -/
theorem get_contacts_updated_min_passthrough (a : Nat) (authOk : Bool)
    (remote : List ContactEntry) (s : String) (mr : Int) :
    (get_contacts a authOk remote (some s) mr).query.updated_min =
      some s := by
  cases authOk <;> rfl

/-- C10: a negative max_results behaves exactly like 0: the guard
`max_results > 0` fails, so no cap is set and the whole run is the one
obtained with 0. -/
theorem get_contacts_negative_max_results (a : Nat) (authOk : Bool)
    (remote : List ContactEntry) (sft : Option String) (mr : Int)
    (h : mr < 0) :
    get_contacts a authOk remote sft mr =
      get_contacts a authOk remote sft 0 := by
  have h1 : ¬ (mr > 0) := by omega
  have h2 : ¬ ((0 : Int) > 0) := by omega
  simp [get_contacts, h1, h2]

/-- Witness for C10 at max_results -3. -/
theorem get_contacts_negative_max_results_witness :
    get_contacts 7 true [] none (-3) = get_contacts 7 true [] none 0 :=
  get_contacts_negative_max_results 7 true [] none (-3) (by decide)

/-- Unfolding of a run with valid credentials: one fetch happens and the
outcome is the iteration pass over the fetched entries. -/
theorem get_contacts_auth_ok (a : Nat) (remote : List ContactEntry)
    (sft : Option String) (mr : Int) :
    get_contacts a true remote sft mr =
      { query := { max_results := if mr > 0 then some mr else none,
                   updated_min := sft },
        yielded := (parseLoop a remote).1,
        error := (parseLoop a remote).2.1,
        fetch_calls := 1,
        log := (parseLoop a remote).2.2 } := rfl

/-- C3: when every entry before `bad` parses successfully and `bad`
lacks its identifier element, the generator yields exactly the records
of the preceding entries in order, then logs the offending raw entry
and raises the attribute-access failure, yielding nothing further. -/
theorem get_contacts_stops_at_missing_id (a : Nat)
    (pre post : List ContactEntry) (bad : ContactEntry)
    (sft : Option String) (mr : Int)
    (hpre : ∀ c ∈ pre, (okValue (parse_contact_result a c).1).isSome = true)
    (hbad : bad.id = none) :
    (get_contacts a true (pre ++ bad :: post) sft mr).yielded =
        pre.filterMap (fun c => okValue (parse_contact_result a c).1) ∧
    (get_contacts a true (pre ++ bad :: post) sft mr).error =
        some PErr.attrError ∧
    LogEvent.badContact bad ∈
      (get_contacts a true (pre ++ bad :: post) sft mr).log := by
  have hparse : parse_contact_result a bad =
      (Except.error PErr.attrError,
        (if 1 < (primary_emails bad).length
          then [LogEvent.multiPrimary (primary_emails bad)] else []) ++
          [LogEvent.badContact bad]) := by
    obtain ⟨bid, be, bn, bu⟩ := bad
    change bid = none at hbad
    subst hbad
    rfl
  have hbadloop : parseLoop a (bad :: post) =
      ([], some PErr.attrError,
        (if 1 < (primary_emails bad).length
          then [LogEvent.multiPrimary (primary_emails bad)] else []) ++
          [LogEvent.badContact bad]) := by
    simp only [parseLoop, hparse]
  have hloop := parseLoop_append_ok a pre (bad :: post) hpre
  rw [get_contacts_auth_ok]
  refine ⟨?_, ?_, ?_⟩
  · rw [hloop]
    simp [hbadloop]
  · rw [hloop]
    simp [hbadloop]
  · rw [hloop]
    simp [hbadloop]

/-- Witness for C3: a batch of a good entry, an entry without identifier
and another good entry raises after logging the bad raw entry. -/
theorem get_contacts_stops_at_missing_id_witness :
    (get_contacts 7 true [cGood, cNoId, cGood] none 0).error =
        some PErr.attrError ∧
    LogEvent.badContact cNoId ∈
      (get_contacts 7 true [cGood, cNoId, cGood] none 0).log := by
  have h := get_contacts_stops_at_missing_id 7 [cGood] [cGood] cNoId none 0
    (by decide) rfl
  exact ⟨h.2.1, h.2.2⟩

/-- C6: for an entry whose identifier string is a slash-delimited path
ending in a slash-free segment `uid`, the produced record's external id
is exactly `uid`. -/
theorem parse_external_id_last_segment (a : Nat) (c : ContactEntry)
    (p uid : String) (hud : ('/' : Char) ∉ uid.data)
    (hid : c.id = some (some (p ++ "/" ++ uid)))
    (r : Contact) (lg : List LogEvent)
    (h : parse_contact_result a c = (Except.ok r, lg)) :
    r.g_id = some uid := by
  obtain ⟨cid, ce, cn, cu⟩ := c
  change cid = some (some (p ++ "/" ++ uid)) at hid
  subst hid
  rcases cu with _ | u
  · simp [parse_contact_result] at h
  · rcases hdp : dateutil_parse u with _ | dt
    · simp [parse_contact_result, hdp] at h
    · simp [parse_contact_result, hdp] at h
      rcases h with ⟨h1, h2⟩
      subst h1
      show some (posixpath_split_tail (p ++ "/" ++ uid)) = some uid
      rw [posixpath_split_tail_append p uid hud]

/-- Witness for C6 at the identifier "http://g/base/ok1". -/
theorem parse_external_id_last_segment_witness : rGood.g_id = some "ok1" :=
  parse_external_id_last_segment 7 cGood "http://g/base" "ok1" (by decide)
    rfl rGood [] rfl

/-- C9: every successfully produced record carries a derived external
id: its g_id field is never absent. -/
theorem parse_external_id_present (a : Nat) (c : ContactEntry)
    (r : Contact) (lg : List LogEvent)
    (h : parse_contact_result a c = (Except.ok r, lg)) :
    r.g_id.isSome = true := by
  obtain ⟨cid, ce, cn, cu⟩ := c
  rcases cid with _ | (_ | s)
  · simp [parse_contact_result] at h
  · simp [parse_contact_result] at h
  · rcases cu with _ | u
    · simp [parse_contact_result] at h
    · rcases hdp : dateutil_parse u with _ | dt
      · simp [parse_contact_result, hdp] at h
      · simp [parse_contact_result, hdp] at h
        rcases h with ⟨h1, h2⟩
        subst h1
        rfl

/-- Witness for C9 at the concrete well-formed entry. -/
theorem parse_external_id_present_witness : rGood.g_id.isSome = true :=
  parse_external_id_present 7 cGood rGood [] rfl
